import Mathlib

/-
Shallow embedding of `benchopt/util.py`: environment-scoped installation,
verification and execution utilities for benchmark solvers.

Modelling conventions:
- Machine state is a `St` record: the set of existing filesystem paths, the
  ordered trace of observable side effects, and a counter supplying fresh
  temporary-file names.
- Interaction with the outside world is an `Env` record of oracles: the exit
  status `os.system` reports for a given script, and whether reopening a given
  temporary file for writing raises `OSError`.
- Raised Python exceptions are an `Except PyExc` result; the state after the
  call is returned alongside in every case.
- The transient file of `tempfile.NamedTemporaryFile` is finalized when
  `_run_in_bash` exits (CPython reference counting), on normal and exceptional
  exit alike; the embedding performs that removal on every branch.
-/

namespace Benchopt

/-- Python exception values raised by the embedded functions. The
`importError` constructor stands for the whole import-error category
(`ImportError` together with its subclasses, `issubclass(exc, ImportError)`).
`assertionError` carries the computed unknown-benchmark set and the list of
valid benchmarks interpolated into the assertion message. -/
inductive PyExc where
  | valueError : String → PyExc
  | runtimeError : String → PyExc
  | osError : String → PyExc
  | importError : String → PyExc
  | otherError : String → PyExc
  | assertionError : List String → List String → PyExc
  deriving DecidableEq, Repr

/-- On-disk paths touched by the module: the store `./.venv/` (`VENV_DIR`),
the per-environment directories `./.venv//NAME`, and the transient temporary
script files produced by `tempfile.NamedTemporaryFile` (numbered by the
freshness counter; they live in the system temp directory, disjoint from the
store). -/
inductive Path where
  | store : Path
  | envDir : String → Path
  | tmp : Nat → Path
  deriving DecidableEq, Repr

/-- Observable side effects, recorded in program order. -/
inductive Event where
  | mkdirStore : Event
  | venvCreate : String → Event
  | fileCreate : Path → Event
  | fileWrite : Path → String → Event
  | procSpawn : String → Event
  | fileRemove : Path → Event
  deriving DecidableEq, Repr

/-- Machine state threaded through the embedded functions. -/
structure St where
  files : List Path
  trace : List Event
  tmpCounter : Nat
  deriving DecidableEq, Repr

/-- Oracles for the outside world: the exit status `os.system` reports for a
given script, and whether reopening a given temporary file for writing raises
an `OSError`. -/
structure Env where
  exitOf : String → Nat
  openFails : Path → Bool

def DEBUG : Bool := true

def VENV_DIR : String := "./.venv/"

def PRINT_INSTALL_ERRORS : Bool := true

/-- Embeds `ALLOW_INSTALL = os.environ.get('BENCHO_ALLOW_INSTALL', False)` as
used by the gates `not ALLOW_INSTALL`: the variable unset yields `False`;
a set variable is a string, truthy exactly when non-empty. The value is
never parsed as a boolean. -/
def ALLOW_INSTALL (bencho_allow_install : Option String) : Bool :=
  match bencho_allow_install with
  | none => false
  | some v => v != ""

/-- Embeds the module-level statement
`if not os.path.exists(VENV_DIR): os.mkdir(VENV_DIR)`, executed at import
time, before any function of the module can run. -/
def moduleInit (s : St) : St :=
  if Path.store ∈ s.files then s
  else { s with files := Path.store :: s.files,
                trace := s.trace ++ [Event.mkdirStore] }

def PIP_INSTALL_CMD (packages : String) : String :=
  "pip install -qq " ++ packages

def BASH_INSTALL_CMD (install_script env : String) : String :=
  "bash install_scripts/" ++ install_script ++ " " ++ env

def CHECK_PACKAGE_INSTALLED_CMD (import_name : String) : String :=
  "python -c 'import " ++ import_name ++ "' 1>/dev/null 2>&1"

def CHECK_CMD_INSTALLED_CMD (cmd_name : String) : String :=
  "type $'" ++ cmd_name ++ "' 1>/dev/null 2>&1"

/-- Removal of a transient file performed by the `NamedTemporaryFile`
finalizer when `_run_in_bash` exits. -/
def removeFileSt (p : Path) (s : St) : St :=
  { s with files := s.files.filter (fun q => decide (q ≠ p)),
           trace := s.trace ++ [Event.fileRemove p] }

/-- Embeds `_run_in_bash(script)`: create a named temporary file, write the
script into it, run it through `bash` via `os.system` and return the exit
code; the temporary file is finalized on function exit on every path. The
`openFails` oracle covers the exceptional path where reopening the temporary
file for writing raises `OSError` (the `DEBUG` echo is pure output and is not
modelled). -/
def _run_in_bash (env : Env) (script : String) (s : St) : Except PyExc Nat × St :=
  let p := Path.tmp s.tmpCounter
  let s1 : St := { files := p :: s.files,
                   trace := s.trace ++ [Event.fileCreate p],
                   tmpCounter := s.tmpCounter + 1 }
  if env.openFails p then
    (Except.error (PyExc.osError "could not open temporary script file"),
     removeFileSt p s1)
  else
    let s2 : St := { s1 with trace := s1.trace ++ [Event.fileWrite p script] }
    let s3 : St := { s2 with trace := s2.trace ++ [Event.procSpawn script] }
    (Except.ok (env.exitOf script), removeFileSt p s3)

/-- The string `f"VENV_DIR/env_name"` used as `env_dir`. -/
def envDirStr (env_name : String) : String :=
  VENV_DIR ++ "/" ++ env_name

/-- The activation prelude the f-string of `_run_bash_in_env` wraps around the
payload script when an environment name is given. -/
def activationScript (env_dir script : String) : String :=
  "\n            source " ++ env_dir ++ "/bin/activate\n            " ++
    script ++ "\n        "

/-- The script actually passed to `_run_in_bash` by `_run_bash_in_env`. -/
def wrappedScript (script : String) (env_name : Option String) : String :=
  match env_name with
  | some name => activationScript (envDirStr name) script
  | none => script

/-- Embeds `_run_bash_in_env(script, env_name)`. -/
def _run_bash_in_env (env : Env) (script : String) (env_name : Option String)
    (s : St) : Except PyExc Nat × St :=
  _run_in_bash env (wrappedScript script env_name) s

/-- The `ValueError` message of the ambient-install policy gate (the source
repeats this literal in `pip_install_in_env` and `bash_install_in_env`). -/
def INSTALL_GATE_MSG : String :=
  "Trying to install solver not in a virtualenv. " ++
    "To allow this, set BENCHO_ALLOW_INSTALL=True."

def pyStrRepr (s : String) : String := "'" ++ s ++ "'"

/-- Python `repr` of the `*packages` tuple, as interpolated by the f-string
`f"Failed to pip install packages ..."`. -/
def pyTupleRepr : List String → String
  | [] => "()"
  | [x] => "(" ++ pyStrRepr x ++ ",)"
  | xs => "(" ++ String.intercalate ", " (xs.map pyStrRepr) ++ ")"

/-- Embeds `pip_install_in_env(*packages, env_name=None)`. -/
def pip_install_in_env (env : Env) (allow_install : Bool) (packages : List String)
    (env_name : Option String) (s : St) : Except PyExc Unit × St :=
  if env_name.isNone && !allow_install then
    (Except.error (PyExc.valueError INSTALL_GATE_MSG), s)
  else
    let cmd := PIP_INSTALL_CMD (String.intercalate " " packages)
    match _run_bash_in_env env cmd env_name s with
    | (Except.error e, s1) => (Except.error e, s1)
    | (Except.ok exit_code, s1) =>
      if exit_code != 0 then
        (Except.error (PyExc.runtimeError
          ("Failed to pip install packages " ++ pyTupleRepr packages)), s1)
      else
        (Except.ok (), s1)

/-- Embeds `bash_install_in_env(script, env_name=None)`. -/
def bash_install_in_env (env : Env) (allow_install : Bool) (script : String)
    (env_name : Option String) (s : St) : Except PyExc Unit × St :=
  if env_name.isNone && !allow_install then
    (Except.error (PyExc.valueError INSTALL_GATE_MSG), s)
  else
    let envArg := if env_name.isSome then "$VIRTUAL_ENV" else "$HOME/.local/"
    let cmd := BASH_INSTALL_CMD script envArg
    match _run_bash_in_env env cmd env_name s with
    | (Except.error e, s1) => (Except.error e, s1)
    | (Except.ok exit_code, s1) =>
      if exit_code != 0 then
        (Except.error (PyExc.runtimeError ("Failed to run script " ++ script)), s1)
      else
        (Except.ok (), s1)

/-- Embeds `check_import_solver(import_name, env_name=None)`. -/
def check_import_solver (env : Env) (import_name : String)
    (env_name : Option String) (s : St) : Except PyExc Bool × St :=
  match _run_bash_in_env env (CHECK_PACKAGE_INSTALLED_CMD import_name)
      env_name s with
  | (Except.ok exit_code, s1) => (Except.ok (exit_code == 0), s1)
  | (Except.error e, s1) => (Except.error e, s1)

/-- Embeds `check_cmd_solver(cmd_name, env_name=None)`. -/
def check_cmd_solver (env : Env) (cmd_name : String)
    (env_name : Option String) (s : St) : Except PyExc Bool × St :=
  match _run_bash_in_env env (CHECK_CMD_INSTALLED_CMD cmd_name) env_name s with
  | (Except.ok exit_code, s1) => (Except.ok (exit_code == 0), s1)
  | (Except.error e, s1) => (Except.error e, s1)

/-- The set `set(benchmarks) - set(all_benchmarks)` computed by
`check_benchmarks` (as a duplicate-free list). -/
def unknown_benchmarks (benchmarks all_benchmarks : List String) : List String :=
  (benchmarks.filter (fun b => decide (¬ b ∈ all_benchmarks))).dedup

/-- Embeds `check_benchmarks(benchmarks, all_benchmarks)`: the assertion
fails exactly when the unknown set is non-empty, and the raised error carries
the whole unknown set plus the valid names interpolated into its message. -/
def check_benchmarks (benchmarks all_benchmarks : List String) :
    Except PyExc Unit :=
  if unknown_benchmarks benchmarks all_benchmarks = [] then Except.ok ()
  else Except.error (PyExc.assertionError
    (unknown_benchmarks benchmarks all_benchmarks) all_benchmarks)

/-- A `Solver` class as exposed by a solver submodule: only its `name`
attribute matters to the registry. -/
structure Solver where
  name : String
  deriving DecidableEq, Repr

/-- A benchmark directory: the ordered list of solver submodules (submodule
name paired with the `Solver` class `import_module` yields for it). -/
structure Benchmark where
  solverModules : List (String × Solver)
  deriving DecidableEq, Repr

/-- Embeds `list_solvers(benchmark)`: the submodule names in scan order. -/
def list_solvers (b : Benchmark) : List String :=
  b.solverModules.map Prod.fst

/-- Python `str.lower()`, written structurally over the character list so it
evaluates by kernel reduction (agrees with `String.toLower`). -/
def pyLower (s : String) : String := ⟨s.data.map Char.toLower⟩

/-- The filtering condition of the loop body of `get_all_solvers`:
`solver_names is None or solver_class.name.lower() in solver_names`. -/
def solverSelected (solver_names : Option (List String))
    (solver_class : Solver) : Bool :=
  match solver_names with
  | none => true
  | some names => decide (pyLower solver_class.name ∈ names)

/-- The accumulation loop of `get_all_solvers`, in scan order. -/
def get_all_solvers_loop (solver_names : Option (List String)) :
    List (String × Solver) → List Solver
  | [] => []
  | m :: rest =>
    if solverSelected solver_names m.2 then
      m.2 :: get_all_solvers_loop solver_names rest
    else
      get_all_solvers_loop solver_names rest

/-- Embeds `get_all_solvers(benchmark, solver_names=None)`. -/
def get_all_solvers (b : Benchmark) (solver_names : Option (List String)) :
    List Solver :=
  get_all_solvers_loop solver_names b.solverModules

/-- Embeds `create_venv(env_name, recreate=False)`: when the environment
directory is absent or `recreate` is set, `venv.create` makes the directory
and the baseline toolset is bootstrapped with `pip_install_in_env` scoped to
the new environment (the progress prints are pure output, not modelled). -/
def create_venv (env : Env) (allow_install : Bool) (env_name : String)
    (recreate : Bool) (s : St) : Except PyExc Unit × St :=
  if !(decide (Path.envDir env_name ∈ s.files)) || recreate then
    let s1 : St := { s with files := Path.envDir env_name :: s.files,
                            trace := s.trace ++ [Event.venvCreate env_name] }
    pip_install_in_env env allow_install ["numpy", "cython", "."]
      (some env_name) s1
  else
    (Except.ok (), s)

/-- The `safe_import` guard object: only its `failed_import` flag matters to
the claims (the `warnings.catch_warnings` record is entered and exited
unconditionally and carries no failure state). -/
structure safe_import where
  failed_import : Bool
  deriving DecidableEq, Repr

/-- `safe_import.__init__`: the failure flag starts false. -/
def safe_import.init : safe_import := { failed_import := false }

/-- Whether an exception belongs to the import-error category,
`issubclass(exc_type, ImportError)`. -/
def PyExc.isImportCategory : PyExc → Bool
  | PyExc.importError _ => true
  | _ => false

/-- `safe_import.__exit__`: returns the updated guard together with the
`silence_error` flag telling the interpreter whether to swallow the
exception. -/
def safe_import.exitScope (g : safe_import) (exc : Option PyExc) :
    safe_import × Bool :=
  match exc with
  | some e =>
    if e.isImportCategory then ({ g with failed_import := true }, true)
    else (g, false)
  | none => (g, false)

/-- Semantics of `with safe_import() as ctx: body`: the body's outcome is fed
to `__exit__`; a silenced exception turns into a normal exit with no value,
an unsilenced one propagates. The final guard object is returned alongside. -/
def withSafeImport {α : Type} (body : Except PyExc α) :
    Except PyExc (Option α) × safe_import :=
  match body with
  | Except.ok a =>
    let r := safe_import.exitScope safe_import.init none
    (Except.ok (some a), r.1)
  | Except.error e =>
    let r := safe_import.exitScope safe_import.init (some e)
    if r.2 then (Except.ok none, r.1) else (Except.error e, r.1)

/-- Transient paths: the temporary script files, the only paths any function
of the module ever removes. -/
def Path.isTransient : Path → Bool
  | Path.tmp _ => true
  | _ => false

/-- Whether a result is the ambient-install configuration `ValueError`. -/
def isConfigGateError : Except PyExc Unit → Bool
  | Except.error (PyExc.valueError _) => true
  | _ => false

/-- The pristine machine state at process start. -/
def st0 : St := { files := [], trace := [], tmpCounter := 0 }

/-- An oracle under which every script succeeds and no open fails. -/
def envOk : Env := { exitOf := fun _ => 0, openFails := fun _ => false }

/-- An oracle under which every script exits with status 1. -/
def envFail : Env := { exitOf := fun _ => 1, openFails := fun _ => false }

/-- A one-solver benchmark used to evaluate the registry concretely. -/
def benchW : Benchmark :=
  { solverModules := [("python_pgd", { name := "Python-PGD" })] }

/-- A state in which the environment directory `bench_env` already exists. -/
def stWithEnv : St :=
  { files := [Path.envDir "bench_env"], trace := [], tmpCounter := 0 }

lemma mem_files_run_in_bash {p : Path} (hp : p.isTransient = false) (env : Env)
    (script : String) (s : St) (h : p ∈ s.files) :
    p ∈ (_run_in_bash env script s).2.files := by
  have hne : p ≠ Path.tmp s.tmpCounter := by
    intro he; rw [he] at hp; simp [Path.isTransient] at hp
  unfold _run_in_bash removeFileSt
  cases ho : env.openFails (Path.tmp s.tmpCounter) <;>
    simp [ho, List.mem_filter, h, hne]

lemma notMem_tmp_run_in_bash (env : Env) (script : String) (s : St) :
    ¬ Path.tmp s.tmpCounter ∈ (_run_in_bash env script s).2.files := by
  unfold _run_in_bash removeFileSt
  cases ho : env.openFails (Path.tmp s.tmpCounter) <;>
    simp [ho, List.mem_filter]

lemma trace_run_in_bash (env : Env) (script : String) (s : St) :
    ∃ l, (_run_in_bash env script s).2.trace = s.trace ++ l := by
  unfold _run_in_bash removeFileSt
  cases ho : env.openFails (Path.tmp s.tmpCounter)
  · exact ⟨[Event.fileCreate (Path.tmp s.tmpCounter),
      Event.fileWrite (Path.tmp s.tmpCounter) script, Event.procSpawn script,
      Event.fileRemove (Path.tmp s.tmpCounter)], by simp [ho]⟩
  · exact ⟨[Event.fileCreate (Path.tmp s.tmpCounter),
      Event.fileRemove (Path.tmp s.tmpCounter)], by simp [ho]⟩

lemma mem_files_run_bash_in_env {p : Path} (hp : p.isTransient = false)
    (env : Env) (script : String) (en : Option String) (s : St)
    (h : p ∈ s.files) : p ∈ (_run_bash_in_env env script en s).2.files :=
  mem_files_run_in_bash hp env (wrappedScript script en) s h

lemma pip_install_state (env : Env) (allow : Bool) (ps : List String)
    (en : Option String) (s : St) :
    (pip_install_in_env env allow ps en s).2 =
      if en.isNone && !allow then s
      else (_run_bash_in_env env
        (PIP_INSTALL_CMD (String.intercalate " " ps)) en s).2 := by
  unfold pip_install_in_env
  cases hg : (en.isNone && !allow)
  · simp only [hg, Bool.false_eq_true, if_false]
    split
    · next e s1 heq => rw [heq]
    · next c s1 heq => rw [heq]; split <;> rfl
  · simp [hg]

lemma bash_install_state (env : Env) (allow : Bool) (sc : String)
    (en : Option String) (s : St) :
    (bash_install_in_env env allow sc en s).2 =
      if en.isNone && !allow then s
      else (_run_bash_in_env env
        (BASH_INSTALL_CMD sc (if en.isSome then "$VIRTUAL_ENV" else "$HOME/.local/"))
        en s).2 := by
  unfold bash_install_in_env
  cases hg : (en.isNone && !allow)
  · simp only [hg, Bool.false_eq_true, if_false]
    split
    · next e s1 heq => rw [heq]
    · next c s1 heq => rw [heq]; split <;> rfl
  · simp [hg]

lemma check_import_state (env : Env) (name : String) (en : Option String)
    (s : St) :
    (check_import_solver env name en s).2 =
      (_run_bash_in_env env (CHECK_PACKAGE_INSTALLED_CMD name) en s).2 := by
  unfold check_import_solver
  split
  · next c s1 heq => rw [heq]
  · next e s1 heq => rw [heq]

lemma check_cmd_state (env : Env) (name : String) (en : Option String)
    (s : St) :
    (check_cmd_solver env name en s).2 =
      (_run_bash_in_env env (CHECK_CMD_INSTALLED_CMD name) en s).2 := by
  unfold check_cmd_solver
  split
  · next c s1 heq => rw [heq]
  · next e s1 heq => rw [heq]

lemma mem_files_pip_install {p : Path} (hp : p.isTransient = false) (env : Env)
    (allow : Bool) (ps : List String) (en : Option String) (s : St)
    (h : p ∈ s.files) : p ∈ (pip_install_in_env env allow ps en s).2.files := by
  rw [pip_install_state]
  cases hg : (en.isNone && !allow)
  · simpa [hg] using mem_files_run_bash_in_env hp env
      (PIP_INSTALL_CMD (String.intercalate " " ps)) en s h
  · simpa [hg] using h

lemma trace_pip_install (env : Env) (allow : Bool) (ps : List String)
    (en : Option String) (s : St) :
    ∃ l, (pip_install_in_env env allow ps en s).2.trace = s.trace ++ l := by
  rw [pip_install_state]
  cases hg : (en.isNone && !allow)
  · simpa [hg] using trace_run_in_bash env
      (wrappedScript (PIP_INSTALL_CMD (String.intercalate " " ps)) en) s
  · exact ⟨[], by simp [hg]⟩

/-- Claim C1: with the environment argument absent and the install-allow flag
unset, `pip_install_in_env` and `bash_install_in_env` raise the configuration
`ValueError` at once: the returned state is exactly the input state, so no
script file is written, no subprocess is spawned and no event is traced. -/
theorem install_gate_closed_no_side_effect :
    (∀ (env : Env) (ps : List String) (s : St),
      pip_install_in_env env false ps none s
        = (Except.error (PyExc.valueError INSTALL_GATE_MSG), s))
  ∧ (∀ (env : Env) (sc : String) (s : St),
      bash_install_in_env env false sc none s
        = (Except.error (PyExc.valueError INSTALL_GATE_MSG), s)) :=
  ⟨fun _ _ _ => rfl, fun _ _ _ => rfl⟩

/-- Claim C9: the transient script file of `_run_in_bash` is removed on every
exit path of the call — subprocess success, non-zero exit and the exceptional
path alike (`env` ranges over all exit statuses and open failures): the file
is created and a removal event is traced, and the file is absent from the
final state. -/
theorem tmp_script_removed_all_paths :
    ∀ (env : Env) (script : String) (s : St),
      ¬ Path.tmp s.tmpCounter ∈ (_run_in_bash env script s).2.files
    ∧ Event.fileCreate (Path.tmp s.tmpCounter)
        ∈ (_run_in_bash env script s).2.trace
    ∧ Event.fileRemove (Path.tmp s.tmpCounter)
        ∈ (_run_in_bash env script s).2.trace := by
  intro env script s
  refine ⟨notMem_tmp_run_in_bash env script s, ?_, ?_⟩ <;>
    unfold _run_in_bash removeFileSt <;>
    cases ho : env.openFails (Path.tmp s.tmpCounter) <;> simp [ho]

lemma pip_result_of_allow (env : Env) (ps : List String) (s : St) :
    (pip_install_in_env env true ps none s).1
      = if env.openFails (Path.tmp s.tmpCounter) = true
        then Except.error (PyExc.osError "could not open temporary script file")
        else if (env.exitOf (PIP_INSTALL_CMD (String.intercalate " " ps)) != 0) = true
          then Except.error (PyExc.runtimeError
            ("Failed to pip install packages " ++ pyTupleRepr ps))
          else Except.ok () := by
  unfold pip_install_in_env _run_bash_in_env _run_in_bash wrappedScript
  cases ho : env.openFails (Path.tmp s.tmpCounter) <;> simp [ho, apply_ite]

lemma bash_result_of_allow (env : Env) (sc : String) (s : St) :
    (bash_install_in_env env true sc none s).1
      = if env.openFails (Path.tmp s.tmpCounter) = true
        then Except.error (PyExc.osError "could not open temporary script file")
        else if (env.exitOf (BASH_INSTALL_CMD sc "$HOME/.local/") != 0) = true
          then Except.error (PyExc.runtimeError ("Failed to run script " ++ sc))
          else Except.ok () := by
  unfold bash_install_in_env _run_bash_in_env _run_in_bash wrappedScript
  cases ho : env.openFails (Path.tmp s.tmpCounter) <;> simp [ho, apply_ite]

lemma pip_no_gate_error_of_allow (env : Env) (ps : List String) (s : St) :
    isConfigGateError (pip_install_in_env env true ps none s).1 = false := by
  rw [pip_result_of_allow]
  split
  · rfl
  · split <;> rfl

lemma bash_no_gate_error_of_allow (env : Env) (sc : String) (s : St) :
    isConfigGateError (bash_install_in_env env true sc none s).1 = false := by
  rw [bash_result_of_allow]
  split
  · rfl
  · split <;> rfl

/-- Claim C10: the ambient-install gate depends only on whether the
`BENCHO_ALLOW_INSTALL` variable was a non-empty string at process start —
`"False"` and `"0"` open it, unset or empty closes it — and the raised or
omitted configuration error for `env_name=None` follows that truthiness
exactly; the value is never parsed as a boolean. -/
theorem allow_install_truthiness :
    (∀ v : String, ALLOW_INSTALL (some v) = (v != ""))
  ∧ ALLOW_INSTALL none = false
  ∧ ALLOW_INSTALL (some "False") = true
  ∧ ALLOW_INSTALL (some "0") = true
  ∧ ALLOW_INSTALL (some "") = false
  ∧ (∀ (env : Env) (ps : List String) (sc : String) (s : St)
        (v : Option String),
      isConfigGateError (pip_install_in_env env (ALLOW_INSTALL v) ps none s).1
          = !(ALLOW_INSTALL v)
      ∧ isConfigGateError
            (bash_install_in_env env (ALLOW_INSTALL v) sc none s).1
          = !(ALLOW_INSTALL v)) := by
  refine ⟨fun v => rfl, rfl, by decide, by decide, by decide, ?_⟩
  intro env ps sc s v
  cases hv : ALLOW_INSTALL v
  · exact ⟨rfl, rfl⟩
  · exact ⟨pip_no_gate_error_of_allow env ps s,
      bash_no_gate_error_of_allow env sc s⟩

/-- Claim C2: a block run inside a `safe_import` scope that raises an
import-category failure leaves `failed_import` true and the exception does
not propagate; a non-import exception propagates unchanged with the flag
still false; normal completion leaves the flag false. -/
theorem safe_import_scope_spec :
    ∀ {α : Type} (e : PyExc) (a : α),
      (e.isImportCategory = true →
        withSafeImport (Except.error e : Except PyExc α)
          = (Except.ok none, { failed_import := true }))
    ∧ (e.isImportCategory = false →
        withSafeImport (Except.error e : Except PyExc α)
          = (Except.error e, { failed_import := false }))
    ∧ withSafeImport (Except.ok a)
        = (Except.ok (some a), { failed_import := false }) := by
  intro α e a
  refine ⟨fun h => ?_, fun h => ?_, rfl⟩ <;>
    simp [withSafeImport, safe_import.exitScope, safe_import.init, h]

/-- Witness for C2 at a concrete import failure and a concrete runtime
failure. -/
theorem safe_import_scope_witness :
    withSafeImport (Except.error (PyExc.importError "numpy") : Except PyExc Nat)
        = (Except.ok none, { failed_import := true })
    ∧ withSafeImport (Except.error (PyExc.runtimeError "boom") : Except PyExc Nat)
        = (Except.error (PyExc.runtimeError "boom"), { failed_import := false }) :=
  ⟨(safe_import_scope_spec (PyExc.importError "numpy") (0 : Nat)).1 rfl,
   (safe_import_scope_spec (PyExc.runtimeError "boom") (0 : Nat)).2.1 rfl⟩

/-- Claim C5: the availability probes return `Except.ok` of a boolean that is
true exactly when the probe subprocess exits with status zero, whenever the
probe mechanism itself (reopening the transient script file) does not fail;
in particular absence is the normal `ok false` result, not an exception. -/
theorem availability_probe_boolean :
    ∀ (env : Env) (import_name cmd_name : String) (en : Option String)
      (s t : St),
      env.openFails (Path.tmp s.tmpCounter) = false →
      env.openFails (Path.tmp t.tmpCounter) = false →
      (check_import_solver env import_name en s).1
          = Except.ok (env.exitOf
              (wrappedScript (CHECK_PACKAGE_INSTALLED_CMD import_name) en) == 0)
      ∧ (check_cmd_solver env cmd_name en t).1
          = Except.ok (env.exitOf
              (wrappedScript (CHECK_CMD_INSTALLED_CMD cmd_name) en) == 0) := by
  intro env iname cname en s t hs ht
  constructor
  · unfold check_import_solver _run_bash_in_env _run_in_bash
    simp [hs]
  · unfold check_cmd_solver _run_bash_in_env _run_in_bash
    simp [ht]

/-- Witness for C5: under an oracle where every probe exits with status 1,
both probes return `ok false` for absent targets. -/
theorem availability_probe_witness :
    (check_import_solver envFail "numpy" none st0).1 = Except.ok false
    ∧ (check_cmd_solver envFail "definitely-nonexistent-cmd-xyz" none st0).1
        = Except.ok false := by
  have h := availability_probe_boolean envFail "numpy"
    "definitely-nonexistent-cmd-xyz" none st0 st0 rfl rfl
  exact ⟨by rw [h.1]; rfl, by rw [h.2]; rfl⟩

/-- Claim C6: when the ambient-install gate passes, a non-zero exit status of
the underlying shell command makes `pip_install_in_env` raise a
`RuntimeError` naming the packages and `bash_install_in_env` raise a
`RuntimeError` naming the script, while a zero exit status raises nothing. -/
theorem install_failure_error_spec :
    ∀ (env : Env) (allow : Bool) (ps : List String) (sc : String)
      (en : Option String) (s : St),
      (en.isNone && !allow) = false →
      env.openFails (Path.tmp s.tmpCounter) = false →
      ((env.exitOf (wrappedScript
            (PIP_INSTALL_CMD (String.intercalate " " ps)) en) ≠ 0 →
          (pip_install_in_env env allow ps en s).1
            = Except.error (PyExc.runtimeError
                ("Failed to pip install packages " ++ pyTupleRepr ps)))
        ∧ (env.exitOf (wrappedScript
              (PIP_INSTALL_CMD (String.intercalate " " ps)) en) = 0 →
            (pip_install_in_env env allow ps en s).1 = Except.ok ()))
      ∧ ((env.exitOf (wrappedScript (BASH_INSTALL_CMD sc
              (if en.isSome then "$VIRTUAL_ENV" else "$HOME/.local/")) en) ≠ 0 →
          (bash_install_in_env env allow sc en s).1
            = Except.error (PyExc.runtimeError ("Failed to run script " ++ sc)))
        ∧ (env.exitOf (wrappedScript (BASH_INSTALL_CMD sc
              (if en.isSome then "$VIRTUAL_ENV" else "$HOME/.local/")) en) = 0 →
            (bash_install_in_env env allow sc en s).1 = Except.ok ())) := by
  intro env allow ps sc en s hg ho
  refine ⟨⟨fun hne => ?_, fun hz => ?_⟩, ⟨fun hne => ?_, fun hz => ?_⟩⟩
  · unfold pip_install_in_env _run_bash_in_env _run_in_bash
    simp [hg, ho, hne]
  · unfold pip_install_in_env _run_bash_in_env _run_in_bash
    simp [hg, ho, hz]
  · unfold bash_install_in_env _run_bash_in_env _run_in_bash
    simp [hg, ho, hne]
  · unfold bash_install_in_env _run_bash_in_env _run_in_bash
    simp [hg, ho, hz]

/-- Witness for C6: a failing pip install raises the packages-naming error; a
succeeding script install raises nothing. -/
theorem install_failure_witness :
    (pip_install_in_env envFail true ["numpy"] none st0).1
        = Except.error (PyExc.runtimeError
            ("Failed to pip install packages " ++ pyTupleRepr ["numpy"]))
    ∧ (bash_install_in_env envOk true "install_pgd.sh" none st0).1
        = Except.ok () := by
  have h1 := install_failure_error_spec envFail true ["numpy"] "install_pgd.sh"
    none st0 rfl rfl
  have h2 := install_failure_error_spec envOk true ["numpy"] "install_pgd.sh"
    none st0 rfl rfl
  exact ⟨h1.1.1 (by decide), h2.2.2 rfl⟩

lemma mem_unknown_benchmarks (req known : List String) (b : String) :
    b ∈ unknown_benchmarks req known ↔ b ∈ req ∧ ¬ b ∈ known := by
  simp [unknown_benchmarks, List.mem_dedup, List.mem_filter]

/-- Claim C7: `check_benchmarks` succeeds exactly when every requested name is
known; otherwise the raised assertion error carries every unknown requested
name at once (together with the valid names interpolated in its message). -/
theorem check_benchmarks_unknown_spec :
    ∀ (requested known : List String),
      (check_benchmarks requested known = Except.ok () ↔
        ∀ b ∈ requested, b ∈ known)
    ∧ ((¬ ∀ b ∈ requested, b ∈ known) →
        check_benchmarks requested known
          = Except.error (PyExc.assertionError
              (unknown_benchmarks requested known) known))
    ∧ (∀ unk all, check_benchmarks requested known
          = Except.error (PyExc.assertionError unk all) →
        (∀ b ∈ requested, ¬ b ∈ known → b ∈ unk) ∧ all = known) := by
  intro req known
  have hempty : unknown_benchmarks req known = [] ↔ ∀ b ∈ req, b ∈ known := by
    rw [List.eq_nil_iff_forall_not_mem]
    constructor
    · intro h b hb
      by_contra hnb
      exact h b ((mem_unknown_benchmarks req known b).mpr ⟨hb, hnb⟩)
    · intro h b hb
      rcases (mem_unknown_benchmarks req known b).mp hb with ⟨h1, h2⟩
      exact h2 (h b h1)
  refine ⟨?_, ?_, ?_⟩
  · unfold check_benchmarks
    by_cases hnil : unknown_benchmarks req known = []
    · rw [if_pos hnil]
      exact iff_of_true rfl (hempty.mp hnil)
    · rw [if_neg hnil]
      exact ⟨fun h => absurd h (by simp),
        fun hall => absurd (hempty.mpr hall) hnil⟩
  · intro hnall
    unfold check_benchmarks
    rw [if_neg (fun hnil => hnall (hempty.mp hnil))]
  · intro unk all h
    unfold check_benchmarks at h
    by_cases hnil : unknown_benchmarks req known = []
    · rw [if_pos hnil] at h
      exact absurd h (by simp)
    · rw [if_neg hnil] at h
      injection h with h1
      injection h1 with h2 h3
      subst h2
      subst h3
      exact ⟨fun b hb hnb =>
        (mem_unknown_benchmarks req known b).mpr ⟨hb, hnb⟩, rfl⟩

/-- Witness for C7: a fully-known request passes; a request with an unknown
name fails reporting exactly that name. -/
theorem check_benchmarks_witness :
    check_benchmarks ["lasso"] ["lasso", "ridge"] = Except.ok ()
    ∧ check_benchmarks ["enet"] ["lasso"]
        = Except.error (PyExc.assertionError ["enet"] ["lasso"]) := by
  refine ⟨(check_benchmarks_unknown_spec ["lasso"] ["lasso", "ridge"]).1.mpr
    (by decide), ?_⟩
  have h := (check_benchmarks_unknown_spec ["enet"] ["lasso"]).2.1 (by decide)
  rw [h]
  rfl

lemma get_all_solvers_loop_none (l : List (String × Solver)) :
    get_all_solvers_loop none l = l.map Prod.snd := by
  induction l with
  | nil => rfl
  | cons m rest ih => simp [get_all_solvers_loop, solverSelected, ih]

lemma get_all_solvers_loop_cons (names : Option (List String))
    (m : String × Solver) (rest : List (String × Solver)) :
    get_all_solvers_loop names (m :: rest)
      = if solverSelected names m.2
        then m.2 :: get_all_solvers_loop names rest
        else get_all_solvers_loop names rest := rfl

lemma mem_get_all_solvers_loop (names : List String)
    (l : List (String × Solver)) (cls : Solver) :
    cls ∈ get_all_solvers_loop (some names) l ↔
      cls ∈ l.map Prod.snd ∧ pyLower cls.name ∈ names := by
  induction l with
  | nil => simp [get_all_solvers_loop]
  | cons m rest ih =>
    by_cases h : pyLower m.2.name ∈ names
    · rw [get_all_solvers_loop_cons,
        if_pos (by simp [solverSelected, h])]
      simp only [List.mem_cons, List.map_cons, ih]
      constructor
      · rintro (rfl | ⟨h1, h2⟩)
        · exact ⟨Or.inl rfl, h⟩
        · exact ⟨Or.inr h1, h2⟩
      · rintro ⟨rfl | h1, h2⟩
        · exact Or.inl rfl
        · exact Or.inr ⟨h1, h2⟩
    · rw [get_all_solvers_loop_cons,
        if_neg (by simp [solverSelected, h])]
      simp only [List.mem_cons, List.map_cons, ih]
      constructor
      · rintro ⟨h1, h2⟩
        exact ⟨Or.inr h1, h2⟩
      · rintro ⟨rfl | h1, h2⟩
        · exact absurd h2 h
        · exact ⟨h1, h2⟩

/-- Claim C4: `get_all_solvers` includes a discovered `Solver` class exactly
when the filter is absent or the class's lower-cased name is in the filter;
with a filter name matching no solver of the benchmark it returns the empty
list (the function is total: unknown filter names never raise). -/
theorem get_all_solvers_filter_spec :
    (∀ b : Benchmark, get_all_solvers b none = b.solverModules.map Prod.snd)
  ∧ (∀ (b : Benchmark) (names : List String) (cls : Solver),
      cls ∈ get_all_solvers b (some names) ↔
        cls ∈ b.solverModules.map Prod.snd ∧ pyLower cls.name ∈ names)
  ∧ (∀ (b : Benchmark) (sname : String),
      (∀ m ∈ b.solverModules, ¬ pyLower m.2.name = sname) →
        get_all_solvers b (some [sname]) = []) := by
  refine ⟨fun b => get_all_solvers_loop_none _,
    fun b names cls => mem_get_all_solvers_loop names _ cls,
    fun b sname h => ?_⟩
  rw [List.eq_nil_iff_forall_not_mem]
  intro cls hcls
  rcases (mem_get_all_solvers_loop [sname] _ cls).mp hcls with ⟨h1, h2⟩
  simp only [List.mem_singleton] at h2
  rcases List.mem_map.mp h1 with ⟨m, hm, rfl⟩
  exact h m hm h2

/-- Witness for C4: filtering the one-solver benchmark by a name that matches
no solver yields the empty list. -/
theorem get_all_solvers_filter_witness :
    get_all_solvers benchW (some ["baseline"]) = [] :=
  get_all_solvers_filter_spec.2.2 benchW "baseline" (by decide)

lemma mem_files_bash_install {p : Path} (hp : p.isTransient = false)
    (env : Env) (allow : Bool) (sc : String) (en : Option String) (s : St)
    (h : p ∈ s.files) : p ∈ (bash_install_in_env env allow sc en s).2.files := by
  rw [bash_install_state]
  cases hg : (en.isNone && !allow)
  · simpa [hg] using mem_files_run_bash_in_env hp env
      (BASH_INSTALL_CMD sc (if en.isSome then "$VIRTUAL_ENV" else "$HOME/.local/"))
      en s h
  · simpa [hg] using h

/-- Claim C3: `create_venv` is idempotent — with the environment directory
already present and `recreate` unset the call is a no-op, and after any first
call the second call without `recreate` is a no-op (creation happens exactly
once) — while `recreate=true` always performs the creation step. -/
theorem create_venv_idempotent_recreate :
    ∀ (env : Env) (allow : Bool) (name : String) (s : St),
      (Path.envDir name ∈ s.files →
        create_venv env allow name false s = (Except.ok (), s))
    ∧ (∀ (r : Except PyExc Unit) (s1 : St),
        create_venv env allow name false s = (r, s1) →
        create_venv env allow name false s1 = (Except.ok (), s1))
    ∧ (∃ rest, (create_venv env allow name true s).2.trace
          = s.trace ++ Event.venvCreate name :: rest) := by
  intro env allow name s
  have hnoop : ∀ t : St, Path.envDir name ∈ t.files →
      create_venv env allow name false t = (Except.ok (), t) := by
    intro t ht
    unfold create_venv
    rw [if_neg (by simp [ht])]
  refine ⟨hnoop s, ?_, ?_⟩
  · intro r s1 h
    by_cases hmem : Path.envDir name ∈ s.files
    · rw [hnoop s hmem] at h
      have hs1 : s = s1 := congrArg Prod.snd h
      exact hnoop s1 (hs1 ▸ hmem)
    · unfold create_venv at h
      rw [if_pos (by simp [hmem])] at h
      have hs1 : s1 = (pip_install_in_env env allow ["numpy", "cython", "."]
          (some name)
          { s with files := Path.envDir name :: s.files,
                   trace := s.trace ++ [Event.venvCreate name] }).2 :=
        (congrArg Prod.snd h).symm
      have hmem1 : Path.envDir name ∈ s1.files := by
        rw [hs1]
        exact @mem_files_pip_install (Path.envDir name) rfl env allow _ _ _
          (List.mem_cons_self _ _)
      exact hnoop s1 hmem1
  · unfold create_venv
    rw [if_pos (by simp)]
    obtain ⟨l, hl⟩ := trace_pip_install env allow ["numpy", "cython", "."]
      (some name)
      { s with files := Path.envDir name :: s.files,
               trace := s.trace ++ [Event.venvCreate name] }
    refine ⟨l, ?_⟩
    rw [hl]
    simp

/-- Witness for C3: on a state where `bench_env` already exists, the call
without `recreate` is a no-op. -/
theorem create_venv_witness :
    create_venv envOk true "bench_env" false stWithEnv
      = (Except.ok (), stWithEnv) :=
  (create_venv_idempotent_recreate envOk true "bench_env" stWithEnv).1
    (by simp [stWithEnv])

/-- Counterexample to claim C8 as stated: starting from a pristine state with
no store on disk, the module-initialization statement itself (run at import
time, before any environment operation is requested) creates the store
directory — its trace records the `mkdir` while the prior trace is empty, so
the store is created eagerly, not lazily. -/
theorem store_created_at_import_counterexample :
    st0.trace = [] ∧ (moduleInit st0).trace = [Event.mkdirStore]
    ∧ Path.store ∈ (moduleInit st0).files := by
  refine ⟨rfl, ?_, ?_⟩ <;> simp [moduleInit, st0]

/-- Amended claim C8: the store directory is created eagerly at module import
when absent (and only then); every other path is only created by an
environment operation; and no operation of the module ever deletes an
existing environment directory or the store — only transient temporary
script files are ever removed. -/
theorem store_eager_no_deletion :
    ∀ (s : St) (p : Path), p.isTransient = false → p ∈ s.files →
      p ∈ (moduleInit s).files
    ∧ (∀ (env : Env) (script : String),
        p ∈ (_run_in_bash env script s).2.files)
    ∧ (∀ (env : Env) (script : String) (en : Option String),
        p ∈ (_run_bash_in_env env script en s).2.files)
    ∧ (∀ (env : Env) (allow : Bool) (ps : List String) (en : Option String),
        p ∈ (pip_install_in_env env allow ps en s).2.files)
    ∧ (∀ (env : Env) (allow : Bool) (sc : String) (en : Option String),
        p ∈ (bash_install_in_env env allow sc en s).2.files)
    ∧ (∀ (env : Env) (iname : String) (en : Option String),
        p ∈ (check_import_solver env iname en s).2.files)
    ∧ (∀ (env : Env) (cname : String) (en : Option String),
        p ∈ (check_cmd_solver env cname en s).2.files)
    ∧ (∀ (env : Env) (allow : Bool) (name : String) (re : Bool),
        p ∈ (create_venv env allow name re s).2.files)
    ∧ (moduleInit s).files
        = if Path.store ∈ s.files then s.files else Path.store :: s.files := by
  intro s p hp h
  refine ⟨?_,
    fun env script => mem_files_run_in_bash hp env script s h,
    fun env script en => mem_files_run_bash_in_env hp env script en s h,
    fun env allow ps en => mem_files_pip_install hp env allow ps en s h,
    fun env allow sc en => mem_files_bash_install hp env allow sc en s h,
    ?_, ?_, ?_, ?_⟩
  · unfold moduleInit
    split
    · exact h
    · exact List.mem_cons_of_mem _ h
  · intro env iname en
    rw [check_import_state]
    exact mem_files_run_bash_in_env hp env _ en s h
  · intro env cname en
    rw [check_cmd_state]
    exact mem_files_run_bash_in_env hp env _ en s h
  · intro env allow name re
    unfold create_venv
    split
    · exact mem_files_pip_install hp env allow _ _ _
        (List.mem_cons_of_mem _ h)
    · exact h
  · unfold moduleInit
    split <;> rfl

/-- Witness for the amended C8 at a concrete non-transient path. -/
theorem store_eager_no_deletion_witness :
    Path.store ∈ (moduleInit
      { files := [Path.store], trace := [], tmpCounter := 0 }).files :=
  (store_eager_no_deletion
    { files := [Path.store], trace := [], tmpCounter := 0 }
    Path.store rfl (by simp)).1

end Benchopt
